import Mathlib

/-!
Shallow embedding of the auth-service token lifecycle
(`AuthService` in the NestJS source: register, login, refreshTokens,
logout, generateTokens, storeRefreshToken) together with the parts of
`UsersService` the claims touch (create with the `userSelect`
projection, findById, findAll, update, assignRole).

Modelling conventions:
- Timestamps are `Nat` (one timeline, in milliseconds); the ambient
  clock `new Date()` becomes an explicit `now : Nat` argument.
- JWT strings are modelled symbolically: `TokenStr.signed` carries the
  payload, issue time, expiry and the signing secret (serialization of
  a signed JWT is injective); `TokenStr.raw` stands for any string that
  is not a well-formed signed token. `jwtVerify` succeeds exactly when
  the secret matches and the token is unexpired, mirroring
  `jwtService.verify`.
- bcrypt digests are modelled as plaintext plus a salt; `bcryptCompare`
  mirrors `bcrypt.compare`.
- Each stateful operation returns the database state it leaves behind
  together with an `Except` result, so writes performed before a thrown
  exception persist, as they do against a real database.
- Prisma calls are modelled on lists: `findUnique` is `List.find?`,
  `update where token` / `updateMany where token` map over the list,
  `create` appends and fails (unique-constraint violation, surfaced as
  `PersistenceError`) when a record with the same token already exists.
-/

/-- Error taxonomy. The NestJS code distinguishes errors by exception
class and message; each distinct (class, message) pair used by the
service becomes one constructor. -/
inductive AuthError where
  /-- UnauthorizedException with message Invalid credentials. -/
  | invalidCredentials
  /-- UnauthorizedException with message Account is deactivated. -/
  | accountInactive
  /-- ConflictException for a duplicate email. -/
  | conflict
  /-- UnauthorizedException with message Invalid refresh token. -/
  | invalidRefreshToken
  /-- UnauthorizedException with message Refresh token expired. -/
  | refreshTokenExpired
  /-- NotFoundException from UsersService.findById. -/
  | userNotFound
  /-- A failed store write (e.g. unique-constraint violation). -/
  | persistence
deriving DecidableEq, Repr

/-- A bcrypt digest: one-way in reality, modelled as the plaintext it
was derived from plus the per-call salt. -/
structure HashStr where
  plain : String
  salt : Nat
deriving DecidableEq, Repr

/-- Mirrors bcrypt.compare(plaintext, digest). -/
def bcryptCompare (password : String) (digest : HashStr) : Bool :=
  password == digest.plain

/-- A token string, modelled symbolically. `signed` is the image of
jwtService.signAsync for a given payload, issue time, expiry and
secret; `raw` is any other string. -/
inductive TokenStr where
  | signed (sub email role : String) (iat exp : Nat) (secret : String)
  | raw (s : String)
deriving DecidableEq, Repr

/-- The claims payload carried by a signed token. -/
structure JwtPayload where
  sub : String
  email : String
  role : String
  iat : Nat
  exp : Nat
deriving DecidableEq, Repr

/-- Mirrors jwtService.verify(token, th secret): returns the payload
when the signature matches the given secret and the token is not
expired, and fails otherwise. -/
def jwtVerify (t : TokenStr) (secret : String) (now : Nat) : Option JwtPayload :=
  match t with
  | .raw _ => none
  | .signed sub email role iat exp sec =>
    if sec == secret && now < exp then
      some { sub := sub, email := email, role := role, iat := iat, exp := exp }
    else
      none

/-- The expiry claim of a signed token, when there is one. -/
def tokenExp : TokenStr → Option Nat
  | .signed _ _ _ _ exp _ => some exp
  | .raw _ => none

/-- A row of the User table. -/
structure User where
  id : String
  email : String
  password : HashStr
  firstName : String
  lastName : String
  role : String
  isActive : Bool
  createdAt : Nat
  updatedAt : Nat
deriving DecidableEq, Repr

/-- A row of the RefreshToken table. -/
structure RefreshTokenRecord where
  token : TokenStr
  userId : String
  expiresAt : Nat
  isRevoked : Bool
  createdAt : Nat
deriving DecidableEq, Repr

/-- The database state the service reads and writes. -/
structure Db where
  users : List User
  refreshTokens : List RefreshTokenRecord
deriving DecidableEq, Repr

/-- Service configuration: the two signing secrets and the two TTLs
(after applying the 15m / 7d defaults for unset config values). -/
structure Env where
  jwtSecret : String
  jwtRefreshSecret : String
  accessTtl : Nat
  refreshTtl : Nat
deriving DecidableEq, Repr

/-- The hard-coded seven days that storeRefreshToken adds to the
current date (expiresAt.setDate(getDate() + 7)), in milliseconds. -/
def sevenDaysMs : Nat := 7 * 24 * 60 * 60 * 1000

/-- A JSON field value, for modelling the shape of response objects. -/
inductive FieldVal where
  | s (v : String)
  | b (v : Bool)
  | n (v : Nat)
  | h (v : HashStr)
deriving DecidableEq, Repr

/-- The full field list of a User row, password included. -/
def User.fields (u : User) : List (String × FieldVal) :=
  [("id", .s u.id), ("email", .s u.email), ("password", .h u.password),
   ("firstName", .s u.firstName), ("lastName", .s u.lastName),
   ("role", .s u.role), ("isActive", .b u.isActive),
   ("createdAt", .n u.createdAt), ("updatedAt", .n u.updatedAt)]

/-- The field names selected by the userSelect constant in
users.service.ts. -/
def userSelect : List String :=
  ["id", "email", "firstName", "lastName", "role", "isActive",
   "createdAt", "updatedAt"]

/-- The shape a Prisma query with select: userSelect returns: every
User field except the password. -/
structure SafeUser where
  id : String
  email : String
  firstName : String
  lastName : String
  role : String
  isActive : Bool
  createdAt : Nat
  updatedAt : Nat
deriving DecidableEq, Repr

/-- Applying the userSelect projection to a row. -/
def selectUser (u : User) : SafeUser :=
  { id := u.id, email := u.email, firstName := u.firstName,
    lastName := u.lastName, role := u.role, isActive := u.isActive,
    createdAt := u.createdAt, updatedAt := u.updatedAt }

/-- The field list of a projected user, as serialized in a response. -/
def SafeUser.fields (u : SafeUser) : List (String × FieldVal) :=
  [("id", .s u.id), ("email", .s u.email),
   ("firstName", .s u.firstName), ("lastName", .s u.lastName),
   ("role", .s u.role), ("isActive", .b u.isActive),
   ("createdAt", .n u.createdAt), ("updatedAt", .n u.updatedAt)]

/-- Body of POST /auth/register. -/
structure RegisterDto where
  email : String
  password : String
  firstName : String
  lastName : String
deriving DecidableEq, Repr

/-- Fields PATCH /users/:id may update. -/
structure UpdateUserDto where
  firstName : Option String
  lastName : Option String
deriving DecidableEq, Repr

/-- The id Prisma would generate for the next created user; modelled
deterministically from the table size. -/
def freshId (db : Db) : String :=
  "user-" ++ toString db.users.length

/-- The salt bcrypt would draw for the next hash call; modelled
deterministically from the table size. -/
def freshSalt (db : Db) : Nat :=
  db.users.length

/-- Mirrors UsersService.findByEmail: prisma.user.findUnique by email,
no select, so the full row (password included) is returned. -/
def findByEmail (db : Db) (email : String) : Option User :=
  db.users.find? (fun u => u.email == email)

/-- Mirrors UsersService.findById: prisma.user.findUnique by id with
select: userSelect; throws NotFoundException when absent. -/
def usersFindById (db : Db) (id : String) : Except AuthError SafeUser :=
  match db.users.find? (fun u => u.id == id) with
  | none => .error .userNotFound
  | some u => .ok (selectUser u)

/-- Mirrors UsersService.findAll: prisma.user.findMany with
select: userSelect. -/
def usersFindAll (db : Db) : List SafeUser :=
  db.users.map selectUser

/-- Mirrors UsersService.create: hashes the password with bcrypt and
creates the row, returning the select: userSelect projection. -/
def usersCreate (now : Nat) (db : Db) (dto : RegisterDto) : Db × SafeUser :=
  let u : User :=
    { id := freshId db, email := dto.email,
      password := { plain := dto.password, salt := freshSalt db },
      firstName := dto.firstName, lastName := dto.lastName,
      role := "USER", isActive := true, createdAt := now, updatedAt := now }
  ({ db with users := db.users ++ [u] }, selectUser u)

/-- Applying an UpdateUserDto to a row, as prisma.user.update does. -/
def applyUpdate (u : User) (dto : UpdateUserDto) (now : Nat) : User :=
  { u with firstName := dto.firstName.getD u.firstName,
           lastName := dto.lastName.getD u.lastName,
           updatedAt := now }

/-- Mirrors UsersService.update: prisma.user.update by id with
select: userSelect; a missing row is a persistence-layer error. -/
def usersUpdate (now : Nat) (db : Db) (id : String) (dto : UpdateUserDto) :
    Db × Except AuthError SafeUser :=
  match db.users.find? (fun u => u.id == id) with
  | none => (db, .error .persistence)
  | some u =>
    let u' := applyUpdate u dto now
    ({ db with users :=
        db.users.map (fun v => if v.id == id then applyUpdate v dto now else v) },
     .ok (selectUser u'))

/-- Mirrors UsersService.assignRole: prisma.user.update setting role,
with select: userSelect. -/
def usersAssignRole (now : Nat) (db : Db) (userId : String) (role : String) :
    Db × Except AuthError SafeUser :=
  match db.users.find? (fun u => u.id == userId) with
  | none => (db, .error .persistence)
  | some u =>
    let u' := { u with role := role, updatedAt := now }
    ({ db with users :=
        db.users.map (fun v =>
          if v.id == userId then { v with role := role, updatedAt := now } else v) },
     .ok (selectUser u'))

/-- The token pair generateTokens returns. -/
structure TokenPair where
  accessToken : TokenStr
  refreshToken : TokenStr
deriving DecidableEq, Repr

/-- Mirrors AuthService.generateTokens: signs the payload
  `\x7b sub, email, role \x7d` with the access secret and access TTL, and
with the refresh secret and refresh TTL. -/
def generateTokens (env : Env) (now : Nat) (userId email role : String) : TokenPair :=
  { accessToken := .signed userId email role now (now + env.accessTtl) env.jwtSecret,
    refreshToken := .signed userId email role now (now + env.refreshTtl) env.jwtRefreshSecret }

/-- Mirrors AuthService.storeRefreshToken: prisma.refreshToken.create
with expiresAt hard-coded to seven days from now and isRevoked false.
The create fails on a token-uniqueness violation. -/
def storeRefreshToken (now : Nat) (db : Db) (userId : String) (token : TokenStr) :
    Db × Except AuthError Unit :=
  if db.refreshTokens.any (fun r => r.token == token) then
    (db, .error .persistence)
  else
    ({ db with refreshTokens := db.refreshTokens ++
        [{ token := token, userId := userId,
           expiresAt := now + sevenDaysMs, isRevoked := false, createdAt := now }] },
     .ok ())

/-- Result shape of POST /auth/register: `\x7b user, ...tokens \x7d`
where user is the select: userSelect projection from create. -/
structure RegisterOk where
  user : List (String × FieldVal)
  accessToken : TokenStr
  refreshToken : TokenStr
deriving DecidableEq, Repr

/-- Mirrors AuthService.register. -/
def register (env : Env) (now : Nat) (db : Db) (dto : RegisterDto) :
    Db × Except AuthError RegisterOk :=
  match findByEmail db dto.email with
  | some _ => (db, .error .conflict)
  | none =>
    let created := usersCreate now db dto
    let db₁ := created.1
    let user := created.2
    let tokens := generateTokens env now user.id user.email user.role
    let stored := storeRefreshToken now db₁ user.id tokens.refreshToken
    (stored.1, stored.2.map (fun _ =>
      { user := user.fields, accessToken := tokens.accessToken,
        refreshToken := tokens.refreshToken }))

/-- Result shape of POST /auth/login: `\x7b user: result, ...tokens \x7d`
where result is the full row with the password key destructured away. -/
structure LoginOk where
  user : List (String × FieldVal)
  accessToken : TokenStr
  refreshToken : TokenStr
deriving DecidableEq, Repr

/-- Mirrors AuthService.login, in the exact order of the source:
missing user, then the isActive check, then the bcrypt compare. -/
def login (env : Env) (now : Nat) (db : Db) (email password : String) :
    Db × Except AuthError LoginOk :=
  match findByEmail db email with
  | none => (db, .error .invalidCredentials)
  | some user =>
    if !user.isActive then (db, .error .accountInactive)
    else if !bcryptCompare password user.password then
      (db, .error .invalidCredentials)
    else
      let tokens := generateTokens env now user.id user.email user.role
      let stored := storeRefreshToken now db user.id tokens.refreshToken
      (stored.1, stored.2.map (fun _ =>
        { user := user.fields.filter (fun f => f.1 != "password"),
          accessToken := tokens.accessToken,
          refreshToken := tokens.refreshToken }))

/-- prisma.refreshToken.update where token, data isRevoked := true (and
likewise the updateMany in logout, which differs only in tolerating
zero matches). -/
def revokeByToken (db : Db) (t : TokenStr) : Db :=
  { db with refreshTokens :=
      db.refreshTokens.map (fun r =>
        if r.token == t then { r with isRevoked := true } else r) }

/-- The try-block of AuthService.refreshTokens, before the catch-all. -/
def refreshTokensBody (env : Env) (now : Nat) (db : Db) (t : TokenStr) :
    Db × Except AuthError TokenPair :=
  match jwtVerify t env.jwtRefreshSecret now with
  | none => (db, .error .invalidRefreshToken)
  | some payload =>
    match db.refreshTokens.find? (fun r => r.token == t) with
    | none => (db, .error .invalidRefreshToken)
    | some stored =>
      if stored.isRevoked then (db, .error .invalidRefreshToken)
      else if stored.expiresAt < now then (db, .error .refreshTokenExpired)
      else
        match usersFindById db payload.sub with
        | .error e => (db, .error e)
        | .ok user =>
          if !user.isActive then (db, .error .accountInactive)
          else
            let db₁ := revokeByToken db t
            let tokens := generateTokens env now user.id user.email user.role
            let stored := storeRefreshToken now db₁ user.id tokens.refreshToken
            (stored.1, stored.2.map (fun _ => tokens))

/-- Mirrors AuthService.refreshTokens: the body wrapped in the catch
that rethrows every failure as the invalid-refresh-token error. -/
def refreshTokens (env : Env) (now : Nat) (db : Db) (t : TokenStr) :
    Db × Except AuthError TokenPair :=
  let b := refreshTokensBody env now db t
  (b.1, b.2.mapError (fun _ => .invalidRefreshToken))

/-- Mirrors AuthService.logout: an unconditional updateMany setting
isRevoked on every record whose token equals the input, then a success
message, with no verification and no caller check. -/
def logout (db : Db) (t : TokenStr) : Db × Except AuthError String :=
  (revokeByToken db t, .ok "Logged out successfully")

/-- A refresh-token string is dead in a state: some record carries it
and every record carrying it is revoked. Once a state satisfies this,
the string can never be accepted by refreshTokens again. -/
def tokenDead (db : Db) (t : TokenStr) : Prop :=
  (∃ r ∈ db.refreshTokens, r.token = t) ∧
  ∀ r ∈ db.refreshTokens, r.token = t → r.isRevoked = true

/-- Every record of the first state survives into the second with
token, userId, expiresAt and createdAt intact; only the revoked flag
may have moved, and only from false to true. -/
def preservesRecords (db db' : Db) : Prop :=
  ∀ r ∈ db.refreshTokens, ∃ r' ∈ db'.refreshTokens,
    r'.token = r.token ∧ r'.userId = r.userId ∧
    r'.expiresAt = r.expiresAt ∧ r'.createdAt = r.createdAt ∧
    (r'.isRevoked = r.isRevoked ∨ r'.isRevoked = true)

/-! Concrete states used by witnesses and counterexamples. -/

/-- A stored bcrypt digest for the password pw123456. -/
def hAlice : HashStr := { plain := "pw123456", salt := 0 }

/-- An active user. -/
def alice : User :=
  { id := "u1", email := "alice@example.com", password := hAlice,
    firstName := "Alice", lastName := "Liddell", role := "USER",
    isActive := true, createdAt := 0, updatedAt := 0 }

/-- A deactivated user. -/
def bob : User :=
  { id := "u2", email := "bob@example.com",
    password := { plain := "pwbob", salt := 1 },
    firstName := "Bob", lastName := "Stone", role := "USER",
    isActive := false, createdAt := 0, updatedAt := 0 }

/-- A configuration with the default TTLs. -/
def env0 : Env :=
  { jwtSecret := "access-secret", jwtRefreshSecret := "refresh-secret",
    accessTtl := 900000, refreshTtl := sevenDaysMs }

/-- A refresh token issued to alice at time 0. -/
def tok0 : TokenStr :=
  .signed "u1" "alice@example.com" "USER" 0 sevenDaysMs "refresh-secret"

/-- The live stored record for tok0. -/
def rec0 : RefreshTokenRecord :=
  { token := tok0, userId := "u1", expiresAt := sevenDaysMs,
    isRevoked := false, createdAt := 0 }

/-- A state holding alice and her live refresh token. -/
def db0 : Db := { users := [alice], refreshTokens := [rec0] }

/-- The token pair a refresh of tok0 at time 1000 produces. -/
def pair0 : TokenPair :=
  { accessToken := .signed "u1" "alice@example.com" "USER" 1000 901000 "access-secret",
    refreshToken := .signed "u1" "alice@example.com" "USER" 1000 604801000 "refresh-secret" }

/-- The state refreshTokens leaves after rotating tok0 at time 1000:
the old record revoked, a fresh record for the new token. -/
def db0AfterRefresh : Db :=
  { users := [alice],
    refreshTokens :=
      [{ rec0 with isRevoked := true },
       { token := pair0.refreshToken, userId := "u1", expiresAt := 604801000,
         isRevoked := false, createdAt := 1000 }] }

/-- The state a successful login of alice at time 1000 leaves. -/
def db0AfterLogin : Db :=
  { users := [alice],
    refreshTokens :=
      [rec0,
       { token := pair0.refreshToken, userId := "u1", expiresAt := 604801000,
         isRevoked := false, createdAt := 1000 }] }

/-- The response body of that login. -/
def loginRes0 : LoginOk :=
  { user := [("id", .s "u1"), ("email", .s "alice@example.com"),
             ("firstName", .s "Alice"), ("lastName", .s "Liddell"),
             ("role", .s "USER"), ("isActive", .b true),
             ("createdAt", .n 0), ("updatedAt", .n 0)],
    accessToken := pair0.accessToken, refreshToken := pair0.refreshToken }

/-- A state holding only the deactivated user bob. -/
def dbInactive : Db := { users := [bob], refreshTokens := [] }

/-- A refresh token for alice whose signature stays valid long after
its stored record has expired. -/
def tokLongLived : TokenStr :=
  .signed "u1" "alice@example.com" "USER" 0 999999999 "refresh-secret"

/-- A stored record for tokLongLived that expired at time 500, never
revoked. -/
def recExpired : RefreshTokenRecord :=
  { token := tokLongLived, userId := "u1", expiresAt := 500,
    isRevoked := false, createdAt := 0 }

/-- A state where tokLongLived verifies but its record is expired. -/
def dbExpired : Db := { users := [alice], refreshTokens := [recExpired] }

/-- A configuration whose refresh TTL is one day, not the hard-coded
seven days of storeRefreshToken. -/
def env1d : Env := { env0 with refreshTtl := 86400000 }

/-- The empty state. -/
def dbEmpty : Db := { users := [], refreshTokens := [] }

/-- A registration request. -/
def regDto0 : RegisterDto :=
  { email := "a@b.c", password := "p", firstName := "A", lastName := "B" }

/-- The exact refresh token register would mint for regDto0 on the
empty state at time 0 under env0. -/
def tokCollide : TokenStr := .signed "user-0" "a@b.c" "USER" 0 604800000 "refresh-secret"

/-- A state pre-seeded with a record already holding tokCollide, so
the store write inside register hits the uniqueness constraint. -/
def dbCollide : Db :=
  { users := [],
    refreshTokens := [{ token := tokCollide, userId := "zz", expiresAt := 0,
                        isRevoked := false, createdAt := 0 }] }

def regRow1 : User :=
  { id := "user-0", email := "a@b.c", password := { plain := "p", salt := 0 },
    firstName := "A", lastName := "B", role := "USER", isActive := true,
    createdAt := 0, updatedAt := 0 }

def regDb1 : Db :=
  { users := [regRow1],
    refreshTokens := [{ token := tokCollide, userId := "user-0",
                        expiresAt := 604800000, isRevoked := false, createdAt := 0 }] }

def regRes1 : RegisterOk :=
  { user := (selectUser regRow1).fields,
    accessToken := .signed "user-0" "a@b.c" "USER" 0 900000 "access-secret",
    refreshToken := tokCollide }

theorem revoke_twice (db : Db) (t : TokenStr) :
    revokeByToken (revokeByToken db t) t = revokeByToken db t := by
  simp only [revokeByToken, List.map_map]
  congr 1
  apply List.map_congr_left
  intro r _
  by_cases h : r.token == t <;> simp [Function.comp, h]

/-- Claim C7: logout always reports success, and running it twice with
the same token leaves the same state and result as running it once. -/
theorem logout_success_idempotent :
    (∀ db t, (logout db t).2 = Except.ok "Logged out successfully") ∧
    (∀ db t, logout (logout db t).1 t = logout db t) := by
  constructor
  · intro db t; rfl
  · intro db t
    simp only [logout, revoke_twice]

/-- Claim C10: logout is a raw string match over stored records: it
rewrites exactly the records whose token equals the input, accepts
strings that verify under no secret, reports success even then, and
revokes a matching record with no condition on its owner or on any
signature or expiry check. -/
theorem logout_matches_raw_string :
    (∀ db t, (logout db t).1.refreshTokens =
      db.refreshTokens.map (fun r =>
        if r.token == t then { r with isRevoked := true } else r)) ∧
    (∀ s secret now, jwtVerify (TokenStr.raw s) secret now = none) ∧
    (∀ db s, (logout db (TokenStr.raw s)).2 = Except.ok "Logged out successfully") ∧
    (∀ db t r, r ∈ db.refreshTokens → r.token = t →
      { r with isRevoked := true } ∈ (logout db t).1.refreshTokens) := by
  refine ⟨fun db t => rfl, fun s secret now => rfl, fun db s => rfl, ?_⟩
  intro db t r hmem htok
  have := List.mem_map_of_mem
    (f := fun r => if r.token == t then { r with isRevoked := true } else r) hmem
  simpa [logout, revokeByToken, htok] using this

theorem logout_matches_raw_string_witness :
    { rec0 with isRevoked := true } ∈ (logout db0 tok0).1.refreshTokens :=
  logout_matches_raw_string.2.2.2 db0 tok0 rec0 (by simp [db0]) rfl

/-- Claim C8: login cannot distinguish a missing account from an
active account given a wrong password: both fail with the one
invalid-credentials error. -/
theorem login_uniform_error (env : Env) (now : Nat) (db : Db)
    (email password : String) :
    (findByEmail db email = none →
      (login env now db email password).2 = Except.error AuthError.invalidCredentials) ∧
    (∀ user, findByEmail db email = some user → user.isActive = true →
      bcryptCompare password user.password = false →
      (login env now db email password).2 = Except.error AuthError.invalidCredentials) := by
  constructor
  · intro h; simp [login, h]
  · intro user h hact hpw; simp [login, h, hact, hpw]

theorem login_uniform_error_witness :
    (login env0 0 db0 "ghost@example.com" "pw").2 =
      Except.error AuthError.invalidCredentials ∧
    (login env0 0 db0 "alice@example.com" "wrong").2 =
      Except.error AuthError.invalidCredentials :=
  ⟨(login_uniform_error env0 0 db0 "ghost@example.com" "pw").1 rfl,
   (login_uniform_error env0 0 db0 "alice@example.com" "wrong").2 alice rfl rfl rfl⟩

/-- Claim C3, counterexample: an existing deactivated user queried
with a wrong password gets the account-inactive error, not the
invalid-credentials error the claim requires. -/
theorem login_inactive_wrong_password_cex :
    bcryptCompare "wrongpw" bob.password = false ∧
    (login env0 0 dbInactive "bob@example.com" "wrongpw").2 =
      Except.error AuthError.accountInactive ∧
    AuthError.accountInactive ≠ AuthError.invalidCredentials := by
  refine ⟨rfl, rfl, by decide⟩

/-- Claim C3 amended: login checks the active flag right after the
user lookup and before the password compare, so every login by a
deactivated existing user fails with the account-inactive error, with
the supplied password never examined. -/
theorem login_inactive_before_password (env : Env) (now : Nat) (db : Db)
    (email password : String) (user : User)
    (hfind : findByEmail db email = some user)
    (hinact : user.isActive = false) :
    (login env now db email password).2 = Except.error AuthError.accountInactive := by
  simp [login, hfind, hinact]

theorem login_inactive_before_password_witness :
    (login env0 0 dbInactive "bob@example.com" "wrongpw").2 =
      Except.error AuthError.accountInactive :=
  login_inactive_before_password env0 0 dbInactive "bob@example.com" "wrongpw" bob rfl rfl

/-- Claim C2: the body of refreshTokens does raise the distinct
refresh-token-expired error on a live but expired record, but the
surrounding catch rethrows every failure as the invalid-refresh-token
error, so no caller can ever observe the expired error. -/
theorem refresh_expired_collapsed :
    (refreshTokensBody env0 1000 dbExpired tokLongLived).2 =
      Except.error AuthError.refreshTokenExpired ∧
    (refreshTokens env0 1000 dbExpired tokLongLived).2 =
      Except.error AuthError.invalidRefreshToken ∧
    AuthError.refreshTokenExpired ≠ AuthError.invalidRefreshToken ∧
    (∀ env now db t, (refreshTokens env now db t).2 =
        Except.error AuthError.invalidRefreshToken ∨
      ∃ pair, (refreshTokens env now db t).2 = Except.ok pair) := by
  refine ⟨rfl, rfl, by decide, ?_⟩
  intro env now db t
  unfold refreshTokens
  cases hb : (refreshTokensBody env now db t).2 with
  | error e => exact Or.inl (by simp [hb, Except.mapError])
  | ok pair => exact Or.inr ⟨pair, by simp [hb, Except.mapError]⟩

theorem storeRefreshToken_ok (now : Nat) (db : Db) (uid : String) (tk : TokenStr)
    (db' : Db) (u : Unit)
    (h : storeRefreshToken now db uid tk = (db', Except.ok u)) :
    db'.users = db.users ∧
    db'.refreshTokens = db.refreshTokens ++
      [{ token := tk, userId := uid, expiresAt := now + sevenDaysMs,
         isRevoked := false, createdAt := now }] ∧
    ∀ r ∈ db.refreshTokens, ¬ r.token = tk := by
  unfold storeRefreshToken at h
  split at h
  · simp at h
  · rename_i hany
    obtain ⟨h1, -⟩ := Prod.mk.inj h
    subst h1
    refine ⟨rfl, rfl, ?_⟩
    intro r hr htk
    exact hany (List.any_eq_true.mpr ⟨r, hr, by simp [htk]⟩)

theorem storeRefreshToken_err (now : Nat) (db : Db) (uid : String) (tk : TokenStr)
    (db' : Db) (e : AuthError)
    (h : storeRefreshToken now db uid tk = (db', Except.error e)) :
    db' = db ∧ e = AuthError.persistence := by
  unfold storeRefreshToken at h
  split at h
  · obtain ⟨h1, h2⟩ := Prod.mk.inj h
    exact ⟨h1.symm, by injection h2.symm⟩
  · simp at h

theorem tokenDead_of_eq_records (db db' : Db) (t : TokenStr)
    (he : db'.refreshTokens = db.refreshTokens) (h : tokenDead db t) :
    tokenDead db' t := by
  unfold tokenDead at h ⊢
  rw [he]
  exact h

theorem tokenDead_revoke (db : Db) (t t₂ : TokenStr) (h : tokenDead db t) :
    tokenDead (revokeByToken db t₂) t := by
  obtain ⟨⟨r, hr, hrt⟩, hall⟩ := h
  constructor
  · refine ⟨if r.token == t₂ then { r with isRevoked := true } else r, ?_, ?_⟩
    · exact List.mem_map_of_mem _ hr
    · split <;> simp [hrt]
  · intro r' hr' hrt'
    simp only [revokeByToken, List.mem_map] at hr'
    obtain ⟨r₀, hr₀, hmap⟩ := hr'
    by_cases hc : r₀.token == t₂
    · simp [hc] at hmap
      simp [← hmap]
    · simp [hc] at hmap
      subst hmap
      exact hall r₀ hr₀ hrt'

theorem tokenDead_store (now : Nat) (db : Db) (uid : String) (tk t : TokenStr)
    (h : tokenDead db t) : tokenDead (storeRefreshToken now db uid tk).1 t := by
  unfold storeRefreshToken
  split
  · exact h
  · rename_i hany
    obtain ⟨⟨r, hr, hrt⟩, hall⟩ := h
    constructor
    · exact ⟨r, by simp [hr], hrt⟩
    · intro r' hr' hrt'
      simp only [List.mem_append, List.mem_singleton] at hr'
      rcases hr' with hr' | hr'
      · exact hall r' hr' hrt'
      · exfalso
        apply hany
        subst hr'
        simp only [List.any_eq_true]
        exact ⟨r, hr, by simp at hrt' ⊢; rw [hrt, hrt']⟩

theorem tokenDead_register (env : Env) (now : Nat) (db : Db) (dto : RegisterDto)
    (t : TokenStr) (h : tokenDead db t) :
    tokenDead (register env now db dto).1 t := by
  unfold register
  split
  · exact h
  · exact tokenDead_store _ _ _ _ _ (tokenDead_of_eq_records db _ t rfl h)

theorem tokenDead_login (env : Env) (now : Nat) (db : Db) (email pw : String)
    (t : TokenStr) (h : tokenDead db t) :
    tokenDead (login env now db email pw).1 t := by
  unfold login
  split
  · exact h
  · split
    · exact h
    · split
      · exact h
      · exact tokenDead_store _ _ _ _ _ h

theorem tokenDead_refresh (env : Env) (now : Nat) (db : Db) (t₂ t : TokenStr)
    (h : tokenDead db t) :
    tokenDead (refreshTokens env now db t₂).1 t := by
  show tokenDead (refreshTokensBody env now db t₂).1 t
  unfold refreshTokensBody
  split
  · exact h
  · split
    · exact h
    · split
      · exact h
      · split
        · exact h
        · split
          · exact h
          · split
            · exact h
            · exact tokenDead_store _ _ _ _ _ (tokenDead_revoke db t t₂ h)

theorem tokenDead_logout (db : Db) (t₂ t : TokenStr) (h : tokenDead db t) :
    tokenDead (logout db t₂).1 t :=
  tokenDead_revoke db t t₂ h

theorem refresh_fails_on_dead (env : Env) (now : Nat) (db : Db) (t : TokenStr)
    (h : tokenDead db t) :
    (refreshTokens env now db t).2 = Except.error AuthError.invalidRefreshToken := by
  have hbody : ∃ e, (refreshTokensBody env now db t).2 = Except.error e := by
    unfold refreshTokensBody
    cases hv : jwtVerify t env.jwtRefreshSecret now with
    | none => simp [hv]
    | some payload =>
      cases hf : db.refreshTokens.find? (fun r => r.token == t) with
      | none => simp [hv, hf]
      | some stored =>
        have hmem := List.mem_of_find?_eq_some hf
        have hpred := List.find?_some hf
        have htok : stored.token = t := by simpa using hpred
        have hrev : stored.isRevoked = true := h.2 stored hmem htok
        simp [hv, hf, hrev]
  obtain ⟨e, he⟩ := hbody
  show ((refreshTokensBody env now db t).2.mapError fun _ => AuthError.invalidRefreshToken) =
    Except.error AuthError.invalidRefreshToken
  rw [he]
  rfl

theorem refreshTokensBody_ok (env : Env) (now : Nat) (db db' : Db) (t : TokenStr)
    (pair : TokenPair)
    (h : refreshTokensBody env now db t = (db', Except.ok pair)) :
    ∃ (stored : RefreshTokenRecord) (user : SafeUser),
      db.refreshTokens.find? (fun r => r.token == t) = some stored ∧
      stored.isRevoked = false ∧
      pair = generateTokens env now user.id user.email user.role ∧
      storeRefreshToken now (revokeByToken db t) user.id pair.refreshToken
        = (db', Except.ok ()) := by
  unfold refreshTokensBody at h
  cases hv : jwtVerify t env.jwtRefreshSecret now with
  | none => simp only [hv] at h; simp at h
  | some payload =>
  simp only [hv] at h
  cases hf : db.refreshTokens.find? (fun r => r.token == t) with
  | none => simp only [hf] at h; simp at h
  | some stored =>
  simp only [hf] at h
  cases hrev : stored.isRevoked with
  | true => simp only [hrev, if_pos] at h; simp at h
  | false =>
  simp only [hrev, Bool.false_eq_true, if_false] at h
  by_cases hexp : stored.expiresAt < now
  · rw [if_pos hexp] at h; simp at h
  · rw [if_neg hexp] at h
    cases hu : usersFindById db payload.sub with
    | error e => simp only [hu] at h; simp at h
    | ok user =>
    simp only [hu] at h
    cases hact : user.isActive with
    | false => simp only [hact, Bool.not_false, if_pos] at h; simp at h
    | true =>
    simp only [hact, Bool.not_true, Bool.false_eq_true, if_false] at h
    cases hs : storeRefreshToken now (revokeByToken db t) user.id
        (generateTokens env now user.id user.email user.role).refreshToken with
    | mk dbS resS =>
    simp only [hs] at h
    cases resS with
    | error e => simp [Except.map] at h
    | ok u =>
      simp only [Except.map] at h
      obtain ⟨h1, h2⟩ := Prod.mk.inj h
      injection h2 with h2
      refine ⟨stored, user, rfl, hrev, h2.symm, ?_⟩
      rw [← h2, hs, h1]

theorem refreshTokens_ok_body (env : Env) (now : Nat) (db db' : Db) (t : TokenStr)
    (pair : TokenPair)
    (h : refreshTokens env now db t = (db', Except.ok pair)) :
    refreshTokensBody env now db t = (db', Except.ok pair) := by
  unfold refreshTokens at h
  obtain ⟨h1, h2⟩ := Prod.mk.inj h
  cases hb : (refreshTokensBody env now db t).2 with
  | error e => rw [hb] at h2; simp [Except.mapError] at h2
  | ok p =>
    rw [hb] at h2
    simp only [Except.mapError] at h2
    injection h2 with h2
    exact Prod.ext h1 (by rw [hb, h2])

theorem tokenDead_after_refresh_ok (env : Env) (now : Nat) (db db' : Db)
    (t : TokenStr) (pair : TokenPair)
    (h : refreshTokensBody env now db t = (db', Except.ok pair)) :
    tokenDead db' t := by
  obtain ⟨stored, user, hf, hrev, hpair, hstore⟩ := refreshTokensBody_ok _ _ _ _ _ _ h
  obtain ⟨hu, hrass, hnew⟩ := storeRefreshToken_ok _ _ _ _ _ _ hstore
  have hmem : stored ∈ db.refreshTokens := List.mem_of_find?_eq_some hf
  have htok : stored.token = t := by simpa using List.find?_some hf
  have himg : ({ stored with isRevoked := true } : RefreshTokenRecord) ∈
      (revokeByToken db t).refreshTokens := by
    have := List.mem_map_of_mem
      (f := fun r => if r.token == t then { r with isRevoked := true } else r) hmem
    simpa [revokeByToken, htok] using this
  constructor
  · exact ⟨{ stored with isRevoked := true },
      by rw [hrass]; exact List.mem_append_left _ himg, htok⟩
  · intro r' hr' hrt'
    rw [hrass] at hr'
    rcases List.mem_append.mp hr' with hl | hr
    · simp only [revokeByToken, List.mem_map] at hl
      obtain ⟨r₀, hr₀, hmap⟩ := hl
      by_cases hc : r₀.token == t
      · rw [if_pos hc] at hmap
        rw [← hmap]
      · rw [if_neg hc] at hmap
        subst hmap
        exact absurd hrt' (by simpa using hc)
    · rw [List.mem_singleton] at hr
      subst hr
      exfalso
      exact hnew _ himg (htok.trans hrt'.symm)

/-- Claim C1: a successful refresh leaves the presented token dead in
the store (its record revoked), a dead token always fails refresh with
the invalid-refresh-token error, and every operation of this service
keeps a dead token dead — so every later refresh with that same string
fails with the invalid-refresh-token error. -/
theorem refresh_single_use (env : Env) (now : Nat) (db db' : Db) (t : TokenStr)
    (pair : TokenPair)
    (h : refreshTokens env now db t = (db', Except.ok pair)) :
    tokenDead db' t ∧
    (∀ now₂ db₂, tokenDead db₂ t →
      (refreshTokens env now₂ db₂ t).2 = Except.error AuthError.invalidRefreshToken) ∧
    (∀ db₂, tokenDead db₂ t →
      (∀ now₂ dto, tokenDead (register env now₂ db₂ dto).1 t) ∧
      (∀ now₂ email pw, tokenDead (login env now₂ db₂ email pw).1 t) ∧
      (∀ now₂ t₂, tokenDead (refreshTokens env now₂ db₂ t₂).1 t) ∧
      (∀ t₂, tokenDead (logout db₂ t₂).1 t)) := by
  refine ⟨tokenDead_after_refresh_ok env now db db' t pair
      (refreshTokens_ok_body env now db db' t pair h), ?_, ?_⟩
  · intro now₂ db₂ hd
    exact refresh_fails_on_dead env now₂ db₂ t hd
  · intro db₂ hd
    exact ⟨fun now₂ dto => tokenDead_register env now₂ db₂ dto t hd,
           fun now₂ email pw => tokenDead_login env now₂ db₂ email pw t hd,
           fun now₂ t₂ => tokenDead_refresh env now₂ db₂ t₂ t hd,
           fun t₂ => tokenDead_logout db₂ t₂ t hd⟩

theorem refresh_single_use_witness :
    tokenDead db0AfterRefresh tok0 ∧
    (refreshTokens env0 2000 db0AfterRefresh tok0).2 =
      Except.error AuthError.invalidRefreshToken := by
  have h : refreshTokens env0 1000 db0 tok0 = (db0AfterRefresh, Except.ok pair0) := rfl
  have h1 := refresh_single_use env0 1000 db0 db0AfterRefresh tok0 pair0 h
  exact ⟨h1.1, h1.2.1 2000 db0AfterRefresh h1.1⟩

theorem preservesRecords_of_eq (db db' : Db)
    (h : db'.refreshTokens = db.refreshTokens) : preservesRecords db db' := by
  intro r hr
  exact ⟨r, by rw [h]; exact hr, rfl, rfl, rfl, rfl, Or.inl rfl⟩

theorem preservesRecords_trans (a b c : Db)
    (h1 : preservesRecords a b) (h2 : preservesRecords b c) :
    preservesRecords a c := by
  intro r hr
  obtain ⟨r', hr', ht, hu, he, hc, hrev⟩ := h1 r hr
  obtain ⟨r'', hr'', ht', hu', he', hc', hrev'⟩ := h2 r' hr'
  refine ⟨r'', hr'', ht'.trans ht, hu'.trans hu, he'.trans he, hc'.trans hc, ?_⟩
  rcases hrev' with h' | h'
  · rcases hrev with h'' | h''
    · exact Or.inl (h'.trans h'')
    · exact Or.inr (h'.trans h'')
  · exact Or.inr h'

theorem preservesRecords_revoke (db : Db) (t : TokenStr) :
    preservesRecords db (revokeByToken db t) := by
  intro r hr
  refine ⟨if r.token == t then { r with isRevoked := true } else r,
    List.mem_map_of_mem _ hr, ?_, ?_, ?_, ?_, ?_⟩ <;> split <;> simp

theorem preservesRecords_store (now : Nat) (db : Db) (uid : String) (tk : TokenStr) :
    preservesRecords db (storeRefreshToken now db uid tk).1 := by
  unfold storeRefreshToken
  split
  · exact preservesRecords_of_eq db db rfl
  · intro r hr
    exact ⟨r, List.mem_append_left _ hr, rfl, rfl, rfl, rfl, Or.inl rfl⟩

/-- Claim C6: no operation deletes a stored refresh-token record, and
the only change any operation makes to an existing record is flipping
its revoked flag to true: after register, login, refreshTokens or
logout every pre-existing record is still present with its token,
userId, expiresAt and createdAt unchanged. -/
theorem records_append_only (env : Env) (now : Nat) (db : Db) :
    (∀ dto, preservesRecords db (register env now db dto).1) ∧
    (∀ email password, preservesRecords db (login env now db email password).1) ∧
    (∀ t, preservesRecords db (refreshTokens env now db t).1) ∧
    (∀ t, preservesRecords db (logout db t).1) := by
  refine ⟨?_, ?_, ?_, fun t => preservesRecords_revoke db t⟩
  · intro dto
    unfold register
    split
    · exact preservesRecords_of_eq db db rfl
    · exact preservesRecords_trans _ _ _
        (preservesRecords_of_eq db (usersCreate now db dto).1 rfl)
        (preservesRecords_store now (usersCreate now db dto).1 _ _)
  · intro email password
    unfold login
    split
    · exact preservesRecords_of_eq db db rfl
    · split
      · exact preservesRecords_of_eq db db rfl
      · split
        · exact preservesRecords_of_eq db db rfl
        · exact preservesRecords_store now db _ _
  · intro t
    show preservesRecords db (refreshTokensBody env now db t).1
    unfold refreshTokensBody
    split
    · exact preservesRecords_of_eq db db rfl
    · split
      · exact preservesRecords_of_eq db db rfl
      · split
        · exact preservesRecords_of_eq db db rfl
        · split
          · exact preservesRecords_of_eq db db rfl
          · split
            · exact preservesRecords_of_eq db db rfl
            · split
              · exact preservesRecords_of_eq db db rfl
              · exact preservesRecords_trans _ _ _
                  (preservesRecords_revoke db t)
                  (preservesRecords_store now (revokeByToken db t) _ _)

theorem records_append_only_witness :
    ∃ r' ∈ (refreshTokens env0 1000 db0 tok0).1.refreshTokens,
      r'.token = rec0.token ∧ r'.userId = rec0.userId ∧
      r'.expiresAt = rec0.expiresAt ∧ r'.createdAt = rec0.createdAt ∧
      (r'.isRevoked = rec0.isRevoked ∨ r'.isRevoked = true) :=
  (records_append_only env0 1000 db0).2.2.1 tok0 rec0 (by simp [db0])

theorem register_ok (env : Env) (now : Nat) (db : Db) (dto : RegisterDto)
    (db' : Db) (res : RegisterOk)
    (h : register env now db dto = (db', Except.ok res)) :
    findByEmail db dto.email = none ∧
    res.user = (usersCreate now db dto).2.fields ∧
    res.refreshToken = (generateTokens env now (usersCreate now db dto).2.id
      (usersCreate now db dto).2.email (usersCreate now db dto).2.role).refreshToken ∧
    storeRefreshToken now (usersCreate now db dto).1 (usersCreate now db dto).2.id
      res.refreshToken = (db', Except.ok ()) := by
  unfold register at h
  cases hfe : findByEmail db dto.email with
  | some u => simp only [hfe] at h; simp at h
  | none =>
  simp only [hfe] at h
  cases hs : storeRefreshToken now (usersCreate now db dto).1
      (usersCreate now db dto).2.id
      (generateTokens env now (usersCreate now db dto).2.id
        (usersCreate now db dto).2.email
        (usersCreate now db dto).2.role).refreshToken with
  | mk dbS resS =>
  simp only [hs] at h
  cases resS with
  | error e => simp [Except.map] at h
  | ok u =>
    simp only [Except.map] at h
    obtain ⟨h1, h2⟩ := Prod.mk.inj h
    injection h2 with h2
    subst h2
    exact ⟨rfl, rfl, rfl, by rw [hs, h1]⟩

theorem login_ok (env : Env) (now : Nat) (db : Db) (email pw : String)
    (db' : Db) (res : LoginOk)
    (h : login env now db email pw = (db', Except.ok res)) :
    ∃ user : User, findByEmail db email = some user ∧ user.isActive = true ∧
      bcryptCompare pw user.password = true ∧
      res.user = user.fields.filter (fun f => f.1 != "password") ∧
      res.refreshToken = (generateTokens env now user.id user.email user.role).refreshToken ∧
      storeRefreshToken now db user.id res.refreshToken = (db', Except.ok ()) := by
  unfold login at h
  cases hfe : findByEmail db email with
  | none => simp only [hfe] at h; simp at h
  | some user =>
  simp only [hfe] at h
  cases hact : user.isActive with
  | false => simp only [hact, Bool.not_false, if_pos] at h; simp at h
  | true =>
  simp only [hact, Bool.not_true, Bool.false_eq_true, if_false] at h
  cases hpw : bcryptCompare pw user.password with
  | false => simp only [hpw, Bool.not_false, if_pos] at h; simp at h
  | true =>
  simp only [hpw, Bool.not_true, Bool.false_eq_true, if_false] at h
  cases hs : storeRefreshToken now db user.id
      (generateTokens env now user.id user.email user.role).refreshToken with
  | mk dbS resS =>
  simp only [hs] at h
  cases resS with
  | error e => simp [Except.map] at h
  | ok u =>
    simp only [Except.map] at h
    obtain ⟨h1, h2⟩ := Prod.mk.inj h
    injection h2 with h2
    subst h2
    exact ⟨user, rfl, hact, hpw, rfl, rfl, by rw [hs, h1]⟩

/-- Claim C4 amended: whenever a token pair is issued, the persisted
record is created with revoked = false and with expiresAt equal to
seven days from issuance regardless of the configured refresh TTL,
while the signed refresh token expires at issuance plus the configured
TTL — the two coincide only when the TTL is the seven-day default. -/
theorem stored_expiry_hardcoded (env : Env) (now : Nat) (db : Db) :
    (∀ dto db' res, register env now db dto = (db', Except.ok res) →
      ∃ r ∈ db'.refreshTokens, r.token = res.refreshToken ∧ r.isRevoked = false ∧
        r.expiresAt = now + sevenDaysMs ∧
        tokenExp res.refreshToken = some (now + env.refreshTtl)) ∧
    (∀ email pw db' res, login env now db email pw = (db', Except.ok res) →
      ∃ r ∈ db'.refreshTokens, r.token = res.refreshToken ∧ r.isRevoked = false ∧
        r.expiresAt = now + sevenDaysMs ∧
        tokenExp res.refreshToken = some (now + env.refreshTtl)) ∧
    (∀ t db' pair, refreshTokens env now db t = (db', Except.ok pair) →
      ∃ r ∈ db'.refreshTokens, r.token = pair.refreshToken ∧ r.isRevoked = false ∧
        r.expiresAt = now + sevenDaysMs ∧
        tokenExp pair.refreshToken = some (now + env.refreshTtl)) := by
  refine ⟨?_, ?_, ?_⟩
  · intro dto db' res h
    obtain ⟨-, -, hrt, hstore⟩ := register_ok env now db dto db' res h
    obtain ⟨-, hrass, -⟩ := storeRefreshToken_ok _ _ _ _ _ _ hstore
    refine ⟨_, by rw [hrass]; exact List.mem_append_right _ (List.mem_singleton_self _),
      rfl, rfl, rfl, ?_⟩
    rw [hrt]
    rfl
  · intro email pw db' res h
    obtain ⟨user, -, -, -, -, hrt, hstore⟩ := login_ok env now db email pw db' res h
    obtain ⟨-, hrass, -⟩ := storeRefreshToken_ok _ _ _ _ _ _ hstore
    refine ⟨_, by rw [hrass]; exact List.mem_append_right _ (List.mem_singleton_self _),
      rfl, rfl, rfl, ?_⟩
    rw [hrt]
    rfl
  · intro t db' pair h
    obtain ⟨stored, user, -, -, hpair, hstore⟩ :=
      refreshTokensBody_ok env now db db' t pair (refreshTokens_ok_body env now db db' t pair h)
    obtain ⟨-, hrass, -⟩ := storeRefreshToken_ok _ _ _ _ _ _ hstore
    refine ⟨_, by rw [hrass]; exact List.mem_append_right _ (List.mem_singleton_self _),
      rfl, rfl, rfl, ?_⟩
    rw [hpair]
    rfl

theorem stored_expiry_hardcoded_witness :
    ∃ r ∈ regDb1.refreshTokens, r.token = regRes1.refreshToken ∧ r.isRevoked = false ∧
      r.expiresAt = 0 + sevenDaysMs ∧
      tokenExp regRes1.refreshToken = some (0 + env0.refreshTtl) :=
  (stored_expiry_hardcoded env0 0 dbEmpty).1 regDto0 regDb1 regRes1 rfl

/-- Claim C4, counterexample: with a configured refresh TTL of one
day, register persists a record expiring seven days out while the
signed refresh token it returns expires one day out. -/
theorem stored_expiry_mismatch_cex :
    ((register env1d 0 dbEmpty regDto0).1.refreshTokens.map
      (fun r => r.expiresAt)) = [604800000] ∧
    ((register env1d 0 dbEmpty regDto0).2.map
      (fun res => tokenExp res.refreshToken)) = Except.ok (some 86400000) ∧
    (604800000 : Nat) ≠ 86400000 := by
  refine ⟨rfl, rfl, by decide⟩

/-- Claim C5: issuance is all-or-nothing. A token pair is returned by
register or login only with a matching unrevoked record persisted in
the resulting state, and when the store write fails, register and
login fail with that store error and return no pair. -/
theorem issuance_all_or_nothing (env : Env) (now : Nat) (db : Db) :
    (∀ dto db' res, register env now db dto = (db', Except.ok res) →
      ∃ r ∈ db'.refreshTokens, r.token = res.refreshToken ∧
        r.userId = (usersCreate now db dto).2.id ∧ r.isRevoked = false) ∧
    (∀ email pw db' res, login env now db email pw = (db', Except.ok res) →
      ∃ user r, findByEmail db email = some user ∧ r ∈ db'.refreshTokens ∧
        r.token = res.refreshToken ∧ r.userId = user.id ∧ r.isRevoked = false) ∧
    (∀ dto, findByEmail db dto.email = none →
      ∀ e, (storeRefreshToken now (usersCreate now db dto).1
          (usersCreate now db dto).2.id
          (generateTokens env now (usersCreate now db dto).2.id
            (usersCreate now db dto).2.email
            (usersCreate now db dto).2.role).refreshToken).2 = Except.error e →
      (register env now db dto).2 = Except.error e) ∧
    (∀ email pw user, findByEmail db email = some user → user.isActive = true →
      bcryptCompare pw user.password = true →
      ∀ e, (storeRefreshToken now db user.id
          (generateTokens env now user.id user.email user.role).refreshToken).2 =
        Except.error e →
      (login env now db email pw).2 = Except.error e) := by
  refine ⟨?_, ?_, ?_, ?_⟩
  · intro dto db' res h
    obtain ⟨-, -, -, hstore⟩ := register_ok env now db dto db' res h
    obtain ⟨-, hrass, -⟩ := storeRefreshToken_ok _ _ _ _ _ _ hstore
    exact ⟨_, by rw [hrass]; exact List.mem_append_right _ (List.mem_singleton_self _),
      rfl, rfl, rfl⟩
  · intro email pw db' res h
    obtain ⟨user, hfe, -, -, -, -, hstore⟩ := login_ok env now db email pw db' res h
    obtain ⟨-, hrass, -⟩ := storeRefreshToken_ok _ _ _ _ _ _ hstore
    exact ⟨user, _, hfe,
      by rw [hrass]; exact List.mem_append_right _ (List.mem_singleton_self _),
      rfl, rfl, rfl⟩
  · intro dto hfe e he
    unfold register
    simp only [hfe]
    show (Except.map _ (storeRefreshToken now (usersCreate now db dto).1
      (usersCreate now db dto).2.id
      (generateTokens env now (usersCreate now db dto).2.id
        (usersCreate now db dto).2.email
        (usersCreate now db dto).2.role).refreshToken).2) = Except.error e
    rw [he]
    rfl
  · intro email pw user hfe hact hpw e he
    unfold login
    simp only [hfe, hact, Bool.not_true, Bool.false_eq_true, if_false,
      hpw]
    show (Except.map _ (storeRefreshToken now db user.id
      (generateTokens env now user.id user.email user.role).refreshToken).2) =
      Except.error e
    rw [he]
    rfl

theorem issuance_all_or_nothing_witness :
    (register env0 0 dbCollide regDto0).2 = Except.error AuthError.persistence ∧
    (∃ user r, findByEmail db0 "alice@example.com" = some user ∧
      r ∈ db0AfterLogin.refreshTokens ∧ r.token = loginRes0.refreshToken ∧
      r.userId = user.id ∧ r.isRevoked = false) :=
  ⟨(issuance_all_or_nothing env0 0 dbCollide).2.2.1 regDto0 rfl
      AuthError.persistence rfl,
   (issuance_all_or_nothing env0 1000 db0).2.1 "alice@example.com" "pw123456"
      db0AfterLogin loginRes0 rfl⟩

theorem safeUser_no_password (su : SafeUser) :
    su.fields.lookup "password" = none := rfl

theorem lookup_filter_ne (l : List (String × FieldVal)) (k : String) :
    (l.filter (fun f => f.1 != k)).lookup k = none := by
  induction l with
  | nil => rfl
  | cons f l ih =>
    by_cases h : f.1 = k
    · simpa [List.filter, h] using ih
    · have hne : (f.1 != k) = true := by simpa using h
      have hbeq : (k == f.1) = false := by
        simp [beq_eq_false_iff_ne]
        exact fun hk => h hk.symm
      simp [List.filter, hne, List.lookup, hbeq, ih]

/-- Claim C9: no success response carries the stored password hash.
The userSelect projection omits the password field, every operation of
UsersService returns that projection, and login destructures the
password key away from the full row before responding. -/
theorem password_never_returned :
    ("password" ∉ userSelect) ∧
    (∀ u : User, (selectUser u).fields =
      u.fields.filter (fun f => userSelect.contains f.1)) ∧
    (∀ su : SafeUser, su.fields.lookup "password" = none) ∧
    (∀ env now db email pw db' res, login env now db email pw = (db', Except.ok res) →
      res.user.lookup "password" = none) ∧
    (∀ env now db dto db' res, register env now db dto = (db', Except.ok res) →
      res.user.lookup "password" = none) ∧
    (∀ db id su, usersFindById db id = Except.ok su →
      su.fields.lookup "password" = none) ∧
    (∀ db su, su ∈ usersFindAll db → su.fields.lookup "password" = none) ∧
    (∀ now db id dto db' su, usersUpdate now db id dto = (db', Except.ok su) →
      su.fields.lookup "password" = none) ∧
    (∀ now db uid role db' su, usersAssignRole now db uid role = (db', Except.ok su) →
      su.fields.lookup "password" = none) := by
  refine ⟨by decide, fun u => rfl, safeUser_no_password, ?_, ?_,
    fun db id su _ => safeUser_no_password su,
    fun db su _ => safeUser_no_password su,
    fun now db id dto db' su _ => safeUser_no_password su,
    fun now db uid role db' su _ => safeUser_no_password su⟩
  · intro env now db email pw db' res h
    obtain ⟨user, -, -, -, huser, -, -⟩ := login_ok env now db email pw db' res h
    rw [huser]
    exact lookup_filter_ne user.fields "password"
  · intro env now db dto db' res h
    obtain ⟨-, huser, -, -⟩ := register_ok env now db dto db' res h
    rw [huser]
    exact safeUser_no_password _

theorem password_never_returned_witness :
    loginRes0.user.lookup "password" = none ∧
    (selectUser alice).fields.lookup "password" = none :=
  ⟨password_never_returned.2.2.2.1 env0 1000 db0 "alice@example.com" "pw123456"
      db0AfterLogin loginRes0 rfl,
   password_never_returned.2.2.1 (selectUser alice)⟩
